import Mathlib

/-!
Shallow embedding of the RIOT OpenThread platform glue:
`pkg/openthread/contrib/platform_radio.c` and
`pkg/openthread/contrib/platform_alarm.c`.

The netdev2 driver is modelled as an explicit record (`Netdev`) holding the
driver state, the configuration values the adapter writes, the raw bytes
captured by the property-set calls, logs of the set-channel / set-power /
send invocations, and the result codes the driver returns from its
primitives.  The two global frame buffers (`sTransmitFrame`,
`sReceiveFrame`) live in `RadioCtx`.  Machine integers are `Nat`/`Int` with
explicit `% 2^w` where C performs a narrowing conversion.
-/

namespace RiotOT

/-- Driver states of `netopt_state_t` used by this file
(OFF, SLEEP, IDLE, RX, TX). -/
inductive NetoptState
  | OFF
  | SLEEP
  | IDLE
  | RX
  | TX
  deriving DecidableEq, Repr

/-- Error codes of `ThreadError` used by this file. -/
inductive ThreadError
  | kThreadError_None
  | kThreadError_Busy
  | kThreadError_NoAck
  | kThreadError_ChannelAccessFailure
  | kThreadError_Abort
  deriving DecidableEq, Repr

/-- Driver event kinds of `netdev2_event_t` dispatched by `sent_pkt`
(plus the receive completion). -/
inductive Netdev2Event
  | RX_COMPLETE
  | TX_COMPLETE
  | TX_COMPLETE_DATA_PENDING
  | TX_NOACK
  | TX_MEDIUM_BUSY
  deriving DecidableEq, Repr

/-- The `RadioPacket` frame: payload buffer, length (uint16), channel,
power. -/
structure RadioPacket where
  mPsdu : List Nat
  mLength : Nat
  mChannel : Nat
  mPower : Int
  deriving DecidableEq, Repr

/-- Model of the netdev2 device (`_dev`): driver state, configuration, raw
bytes captured by property sets, call logs, and the results its primitives
return.  `recvLenRes` is the value returned by `recv(dev, NULL, 0, NULL)`
(the frame length query) and `recvReadRes` the value returned by the payload
read; `setResult` and `sendResult` are the codes the driver returns from
`set` and `send`. -/
structure Netdev where
  state : NetoptState
  channel : Nat
  power : Int
  panidRaw : Option Nat
  shortAddrRaw : Option Nat
  longAddrRaw : Option (Fin 8 → Nat)
  setChannelCalls : List Nat
  setPowerCalls : List Int
  sendCalls : List (List Nat × Nat)
  recvLenRes : Int
  recvReadRes : Int
  setResult : Int
  sendResult : Int

/-- The two global frame buffers of `platform_radio.c`. -/
structure RadioCtx where
  sTransmitFrame : RadioPacket
  sReceiveFrame : RadioPacket
  deriving DecidableEq, Repr

/-- C conversion of an `int` value to `unsigned` (32-bit): reduction
modulo `2^32`. -/
def uint32_of_int (x : Int) : Nat := (x % (2 ^ 32 : Int)).toNat

/-- C narrowing of a nonnegative value to `uint16_t`. -/
def uint16_of (x : Nat) : Nat := x % 2 ^ 16

/-- Embeds `get_channel`: asks the driver for the current channel. -/
def get_channel (d : Netdev) : Nat := d.channel

/-- Embeds `set_channel`: `driver->set(dev, NETOPT_CHANNEL, &channel, 2)`;
the call is logged and the driver result returned. -/
def set_channel (d : Netdev) (channel : Nat) : Int × Netdev :=
  (d.setResult,
    { d with channel := uint16_of channel,
             setChannelCalls := d.setChannelCalls ++ [uint16_of channel] })

/-- Embeds `get_power`: asks the driver for the transmit power. -/
def get_power (d : Netdev) : Int := d.power

/-- Embeds `set_power`: `driver->set(dev, NETOPT_TX_POWER, &power, 2)`;
the call is logged and the driver result returned. -/
def set_power (d : Netdev) (power : Int) : Int × Netdev :=
  (d.setResult,
    { d with power := power, setPowerCalls := d.setPowerCalls ++ [power] })

/-- Embeds `set_panid`: `driver->set(dev, NETOPT_NID, &panid, 2)`; the raw
16-bit value handed to the driver is captured. -/
def set_panid (d : Netdev) (panid : Nat) : Int × Netdev :=
  (d.setResult, { d with panidRaw := some (uint16_of panid) })

/-- Embeds `set_addr`: `driver->set(dev, NETOPT_ADDRESS, &addr, 2)`; the
raw 16-bit value handed to the driver is captured. -/
def set_addr (d : Netdev) (addr : Nat) : Int × Netdev :=
  (d.setResult, { d with shortAddrRaw := some (uint16_of addr) })

/-- Embeds `set_long_addr`: `driver->set(dev, NETOPT_ADDRESS_LONG, buf, 8)`;
the raw 8 bytes handed to the driver are captured. -/
def set_long_addr (d : Netdev) (ext_addr : Fin 8 → Nat) : Int × Netdev :=
  (d.setResult, { d with longAddrRaw := some ext_addr })

/-- Embeds `get_long_addr`: `driver->get(dev, NETOPT_ADDRESS_LONG, buf, 8)`;
the device echoes the raw stored bytes (zero bytes when never set). -/
def get_long_addr (d : Netdev) : Fin 8 → Nat :=
  match d.longAddrRaw with
  | some a => a
  | none => fun _ => 0

/-- Embeds `get_state`: reads `NETOPT_STATE` from the driver. -/
def get_state (d : Netdev) : NetoptState := d.state

/-- Embeds `set_state`: writes `NETOPT_STATE` to the driver. -/
def set_state (d : Netdev) (s : NetoptState) : Netdev := { d with state := s }

/-- Embeds `is_busy`: driver state is TX or RX. -/
def is_busy (d : Netdev) : Bool :=
  get_state d = NetoptState.TX ∨ get_state d = NetoptState.RX

/-- Modelled from the spec: `is_rx` is called by `otPlatRadioTransmit` but
is not defined in the sources available here.  The spec states the Transmit
precondition as the device being not currently receiving (not mid-Rx), so
`is_rx` holds exactly when the driver state is RX. -/
def is_rx (d : Netdev) : Bool := get_state d = NetoptState.RX

/-- Modelled from the spec: `is_tx` is called by `otPlatRadioTransmit` but
is not defined in the sources available here.  The spec states the Transmit
precondition as the device being not currently transmitting (not mid-Tx),
so `is_tx` holds exactly when the driver state is TX. -/
def is_tx (d : Netdev) : Bool := get_state d = NetoptState.TX

/-- Result of `recv_pkt`: the upcall made via `otPlatRadioReceiveDone`
(frame reference and error), the frame buffers afterwards, and the length
argument of the payload read into the receive buffer (`none` when no read
was performed). -/
structure RecvOutcome where
  upcallFrame : Option RadioPacket
  upcallError : ThreadError
  ctx : RadioCtx
  bufferReadLen : Option Int

/-- Embeds `recv_pkt`: queries the frame length, aborts (without touching
the frame or buffer) when the length exceeds `UINT16_MAX` under the C
`int`-vs-`unsigned` comparison, otherwise fills length and power, reads the
payload, and reports success exactly when the read result is positive. -/
def recv_pkt (d : Netdev) (ctx : RadioCtx) : RecvOutcome :=
  let len : Int := d.recvLenRes
  if uint32_of_int len > 65535 then
    { upcallFrame := none, upcallError := ThreadError.kThreadError_Abort,
      ctx := ctx, bufferReadLen := none }
  else
    let frame1 : RadioPacket :=
      { ctx.sReceiveFrame with mLength := uint16_of len.toNat,
                               mPower := get_power d }
    let ctx1 : RadioCtx := { ctx with sReceiveFrame := frame1 }
    let res : Int := d.recvReadRes
    { upcallFrame := if res > 0 then some frame1 else none,
      upcallError := if res > 0 then ThreadError.kThreadError_None
                     else ThreadError.kThreadError_Abort,
      ctx := ctx1, bufferReadLen := some len }

/-- An `otPlatRadioTransmitDone` upcall: the frame reference, the
frame-pending flag and the error code. -/
structure TxDoneUpcall where
  frame : RadioPacket
  pending : Bool
  error : ThreadError
  deriving DecidableEq, Repr

/-- Embeds `sent_pkt`: maps the driver completion event to the
`otPlatRadioTransmitDone` upcall; the default branch makes no upcall. -/
def sent_pkt (ctx : RadioCtx) (event : Netdev2Event) : Option TxDoneUpcall :=
  match event with
  | Netdev2Event.TX_COMPLETE =>
      some ⟨ctx.sTransmitFrame, false, ThreadError.kThreadError_None⟩
  | Netdev2Event.TX_COMPLETE_DATA_PENDING =>
      some ⟨ctx.sTransmitFrame, true, ThreadError.kThreadError_None⟩
  | Netdev2Event.TX_NOACK =>
      some ⟨ctx.sTransmitFrame, false, ThreadError.kThreadError_NoAck⟩
  | Netdev2Event.TX_MEDIUM_BUSY =>
      some ⟨ctx.sTransmitFrame, false,
            ThreadError.kThreadError_ChannelAccessFailure⟩
  | _ => none

/-- Embeds `otPlatRadioGetIeeeEui64`: reads the long address from the
driver into the caller buffer, with no byte transform. -/
def otPlatRadioGetIeeeEui64 (d : Netdev) : Fin 8 → Nat := get_long_addr d

/-- Embeds `otPlatRadioSetPanId`: byte-swaps the 16-bit PAN id and hands it
to `set_panid`. -/
def otPlatRadioSetPanId (d : Netdev) (aPanId : Nat) : Netdev :=
  let p := uint16_of aPanId
  (set_panid d (((p &&& 0xff) <<< 8) ||| ((p >>> 8) &&& 0xff))).2

/-- Byte reversal performed by the loop in `otPlatRadioSetExtendedAddress`:
`reversed_addr[i] = aExtendedAddress[7 - i]`. -/
def reverseAddr (a : Fin 8 → Nat) : Fin 8 → Nat :=
  fun i => a ⟨7 - i.val, Nat.lt_succ_of_le (Nat.sub_le 7 i.val)⟩

/-- Embeds `otPlatRadioSetExtendedAddress`: reverses the 8 address bytes
and hands them to `set_long_addr`. -/
def otPlatRadioSetExtendedAddress (d : Netdev) (a : Fin 8 → Nat) : Netdev :=
  (set_long_addr d (reverseAddr a)).2

/-- Embeds `otPlatRadioSetShortAddress`: byte-swaps the 16-bit short
address and hands it to `set_addr`. -/
def otPlatRadioSetShortAddress (d : Netdev) (aShortAddress : Nat) : Netdev :=
  let a := uint16_of aShortAddress
  (set_addr d (((a &&& 0xff) <<< 8) ||| ((a >>> 8) &&& 0xff))).2

/-- Embeds `otPlatRadioEnable`: success immediately when busy, otherwise
set driver state to SLEEP and report success. -/
def otPlatRadioEnable (d : Netdev) : ThreadError × Netdev :=
  if is_busy d then (ThreadError.kThreadError_None, d)
  else (ThreadError.kThreadError_None, set_state d NetoptState.SLEEP)

/-- Embeds `otPlatRadioDisable`: Busy when busy, otherwise set driver state
to OFF and report success. -/
def otPlatRadioDisable (d : Netdev) : ThreadError × Netdev :=
  if is_busy d then (ThreadError.kThreadError_Busy, d)
  else (ThreadError.kThreadError_None, set_state d NetoptState.OFF)

/-- Embeds `otPlatRadioSleep`: Busy when busy, otherwise set driver state
to SLEEP and tail-call `otPlatRadioDisable`. -/
def otPlatRadioSleep (d : Netdev) : ThreadError × Netdev :=
  if is_busy d then (ThreadError.kThreadError_Busy, d)
  else otPlatRadioDisable (set_state d NetoptState.SLEEP)

/-- Embeds `otPlatRadioReceive`: Busy when busy, otherwise set the channel,
record it in the receive frame, set driver state to IDLE and report
success. -/
def otPlatRadioReceive (d : Netdev) (ctx : RadioCtx) (aChannel : Nat) :
    ThreadError × Netdev × RadioCtx :=
  if is_busy d then (ThreadError.kThreadError_Busy, d, ctx)
  else
    let d1 := (set_channel d aChannel).2
    let ctx1 := { ctx with sReceiveFrame :=
      { ctx.sReceiveFrame with mChannel := aChannel } }
    (ThreadError.kThreadError_None, set_state d1 NetoptState.IDLE, ctx1)

/-- Result of `otPlatRadioTransmit`: return code, whether the defensive
`assert(false)` fired, and the device and frame buffers afterwards. -/
structure TransmitResult where
  ret : ThreadError
  assertFailed : Bool
  dev : Netdev
  ctx : RadioCtx

/-- Embeds `otPlatRadioTransmit`: when the device is mid-Rx or mid-Tx the
defensive `assert(false)` fires and Busy is returned with nothing else
done; otherwise the iovec is built from the transmit frame, channel and
power are set from it, the packet is sent, and success is returned
(the driver results of `set` and `send` are ignored). -/
def otPlatRadioTransmit (d : Netdev) (ctx : RadioCtx) : TransmitResult :=
  if is_rx d || is_tx d then
    { ret := ThreadError.kThreadError_Busy, assertFailed := true,
      dev := d, ctx := ctx }
  else
    let pkt : List Nat × Nat := (ctx.sTransmitFrame.mPsdu, ctx.sTransmitFrame.mLength)
    let d1 := (set_channel d ctx.sTransmitFrame.mChannel).2
    let d2 := (set_power d1 ctx.sTransmitFrame.mPower).2
    let d3 := { d2 with sendCalls := d2.sendCalls ++ [pkt] }
    { ret := ThreadError.kThreadError_None, assertFailed := false,
      dev := d3, ctx := ctx }

/-- Message tags sent to the OpenThread event thread; `otEvent` is
`OPENTHREAD_XTIMER_MSG_TYPE_EVENT`. -/
inductive MsgType
  | otEvent
  deriving DecidableEq, Repr

/-- State of the alarm module: the pending deadline (absolute microsecond
time) of the single `ot_timer` object, and the messages enqueued to the
event thread. -/
structure AlarmState where
  timer : Option Nat
  queue : List MsgType
  deriving DecidableEq, Repr

/-- Microseconds per millisecond (`US_PER_MS`). -/
def US_PER_MS : Nat := 1000

/-- Modelled from the spec: `msg_send` (RIOT core, outside these sources)
synchronously enqueues a message to the target thread. -/
def msg_send (s : AlarmState) : AlarmState :=
  { s with queue := s.queue ++ [MsgType.otEvent] }

/-- Modelled from the spec: the RIOT xtimer facility (outside these
sources) provides invoke-callback-after-duration scheduling with
cancellation; arming the single timer object sets its deadline to
now + offset, replacing any pending deadline of that same object. -/
def xtimer_set_msg (nowUs : Nat) (offset : Nat) (s : AlarmState) : AlarmState :=
  { s with timer := some (nowUs + offset) }

/-- Modelled from the spec: removing the timer cancels any pending
scheduled delivery of that timer object; a no-op when none is pending. -/
def xtimer_remove (s : AlarmState) : AlarmState :=
  { s with timer := none }

/-- Embeds `otPlatAlarmMilliStartAt`: with zero delay the event message is
sent synchronously; otherwise the timer is armed with the offset
`aDt * US_PER_MS` (uint32 arithmetic) relative to the current time.
`nowUs` is the current microsecond time at the call. -/
def otPlatAlarmMilliStartAt (nowUs : Nat) (aT0 : Nat) (aDt : Nat)
    (s : AlarmState) : AlarmState :=
  if aDt = 0 then msg_send s
  else xtimer_set_msg nowUs ((aDt * US_PER_MS) % 2 ^ 32) s

/-- Embeds `otPlatAlarmMilliStop`: removes the timer; returns nothing
(`void`), so no error can be reported. -/
def otPlatAlarmMilliStop (s : AlarmState) : AlarmState :=
  xtimer_remove s

/-- Concrete device in the given driver state, with quiet defaults
elsewhere. -/
def mkDev (st : NetoptState) : Netdev :=
  { state := st, channel := 26, power := 0, panidRaw := none,
    shortAddrRaw := none, longAddrRaw := none, setChannelCalls := [],
    setPowerCalls := [], sendCalls := [], recvLenRes := 0, recvReadRes := 0,
    setResult := 0, sendResult := 0 }

/-- Concrete frame used by witnesses. -/
def pkt0 : RadioPacket := { mPsdu := [1, 2, 3], mLength := 3, mChannel := 11, mPower := 0 }

/-- Concrete frame-buffer pair used by witnesses. -/
def ctx0 : RadioCtx := { sTransmitFrame := pkt0, sReceiveFrame := pkt0 }

/-- Alarm state with no pending timer and an empty queue. -/
def alarm0 : AlarmState := { timer := none, queue := [] }

/-- Alarm state with a pending timer deadline. -/
def alarmPending : AlarmState := { timer := some 7777, queue := [] }

/-- Concrete sample extended address 00-01-02-03-04-05-06-07. -/
def sampleAddr : Fin 8 → Nat := fun i => i.val

/-- Concrete device whose driver reports a frame length beyond
`UINT16_MAX`. -/
def devRecvBig : Netdev := { mkDev NetoptState.IDLE with recvLenRes := 70000 }

/-- Concrete device whose driver reports an in-range frame length and a
successful payload read. -/
def devRecvOk : Netdev :=
  { mkDev NetoptState.IDLE with recvLenRes := 100, recvReadRes := 100, power := -7 }

/-- The C byte-swap expression `((x & 0xff) << 8) | ((x >> 8) & 0xff)`
exchanges the low and high bytes of a 16-bit value. -/
theorem swap16_bits_eq (p : Nat) (hp : p < 65536) :
    ((p &&& 0xff) <<< 8) ||| ((p >>> 8) &&& 0xff) = (p % 256) * 256 + p / 256 := by
  have h1 : p &&& 0xff = p % 256 := by
    have h := Nat.and_pow_two_sub_one_eq_mod p 8
    norm_num at h
    exact h
  have h2 : p >>> 8 = p / 256 := by
    have h := Nat.shiftRight_eq_div_pow p 8
    norm_num at h
    exact h
  have h3 : p / 256 < 256 := by omega
  have h4 : p / 256 &&& 0xff = p / 256 := by
    have h := Nat.and_pow_two_sub_one_eq_mod (p / 256) 8
    norm_num at h
    rw [h, Nat.mod_eq_of_lt h3]
  have h5 : (p % 256) <<< 8 = (p % 256) * 256 := by
    have h := Nat.shiftLeft_eq (p % 256) 8
    norm_num at h
    exact h
  have h6 : 2 ^ 8 * (p % 256) + p / 256 = 2 ^ 8 * (p % 256) ||| p / 256 :=
    Nat.mul_add_lt_is_or (by simpa using h3) (p % 256)
  rw [h1, h2, h4, h5]
  have h7 : (p % 256) * 256 = 2 ^ 8 * (p % 256) := by ring
  rw [h7, ← h6]

/-- The raw 16-bit value the property adapter hands to the driver is the
byte-swapped input. -/
theorem set_swapped_raw (x : Nat) (hx : x < 65536) :
    uint16_of (((uint16_of x &&& 0xff) <<< 8) ||| ((uint16_of x >>> 8) &&& 0xff)) =
      (x % 256) * 256 + x / 256 := by
  have hu : uint16_of x = x := by
    unfold uint16_of
    omega
  rw [hu, swap16_bits_eq x hx]
  unfold uint16_of
  omega

/-- C1: a Transmit command issued while the device is mid-transmit or
mid-receive is rejected with Busy, the defensive assert fires (fatal
caller-contract violation), the outbound frame buffer is unchanged, no
channel or power set reaches the device, and the send primitive is not
issued. -/
theorem transmit_while_busy_rejected (d : Netdev) (ctx : RadioCtx)
    (h : is_rx d = true ∨ is_tx d = true) :
    (otPlatRadioTransmit d ctx).ret = ThreadError.kThreadError_Busy ∧
    (otPlatRadioTransmit d ctx).assertFailed = true ∧
    (otPlatRadioTransmit d ctx).ctx.sTransmitFrame = ctx.sTransmitFrame ∧
    (otPlatRadioTransmit d ctx).dev.setChannelCalls = d.setChannelCalls ∧
    (otPlatRadioTransmit d ctx).dev.setPowerCalls = d.setPowerCalls ∧
    (otPlatRadioTransmit d ctx).dev.sendCalls = d.sendCalls ∧
    (otPlatRadioTransmit d ctx).dev = d := by
  rcases h with h | h <;>
    simp [otPlatRadioTransmit, h]

/-- C1 witness: evaluated on a device mid-receive. -/
theorem transmit_while_busy_rejected_witness :
    (is_rx (mkDev NetoptState.RX) = true ∨ is_tx (mkDev NetoptState.RX) = true) ∧
    (otPlatRadioTransmit (mkDev NetoptState.RX) ctx0).ret = ThreadError.kThreadError_Busy ∧
    (otPlatRadioTransmit (mkDev NetoptState.RX) ctx0).assertFailed = true ∧
    (otPlatRadioTransmit (mkDev NetoptState.RX) ctx0).dev.sendCalls = (mkDev NetoptState.RX).sendCalls := by
  have h : is_rx (mkDev NetoptState.RX) = true ∨ is_tx (mkDev NetoptState.RX) = true :=
    Or.inl (by decide)
  have hthm := transmit_while_busy_rejected (mkDev NetoptState.RX) ctx0 h
  exact ⟨h, hthm.1, hthm.2.1, hthm.2.2.2.2.2.1⟩

/-- C2: the transmit-done handler maps each of the four driver completion
kinds to exactly the documented result and pending-flag pair, reported
together with the outbound frame: TX_COMPLETE to (Success, false),
TX_COMPLETE_DATA_PENDING to (Success, true), TX_NOACK to (NoAck, false),
TX_MEDIUM_BUSY to (ChannelAccessFailure, false). -/
theorem sent_pkt_mapping (ctx : RadioCtx) :
    sent_pkt ctx Netdev2Event.TX_COMPLETE =
      some ⟨ctx.sTransmitFrame, false, ThreadError.kThreadError_None⟩ ∧
    sent_pkt ctx Netdev2Event.TX_COMPLETE_DATA_PENDING =
      some ⟨ctx.sTransmitFrame, true, ThreadError.kThreadError_None⟩ ∧
    sent_pkt ctx Netdev2Event.TX_NOACK =
      some ⟨ctx.sTransmitFrame, false, ThreadError.kThreadError_NoAck⟩ ∧
    sent_pkt ctx Netdev2Event.TX_MEDIUM_BUSY =
      some ⟨ctx.sTransmitFrame, false, ThreadError.kThreadError_ChannelAccessFailure⟩ :=
  ⟨rfl, rfl, rfl, rfl⟩

/-- C10: whenever the device is neither mid-receive nor mid-transmit, the
Transmit command returns Success unconditionally — the driver results of
`set` (channel, power) and `send`, held in the quantified device record,
never influence the return value — while the send primitive is issued. -/
theorem transmit_always_reports_success (d : Netdev) (ctx : RadioCtx)
    (h1 : is_rx d = false) (h2 : is_tx d = false) :
    (otPlatRadioTransmit d ctx).ret = ThreadError.kThreadError_None ∧
    (otPlatRadioTransmit d ctx).assertFailed = false ∧
    (otPlatRadioTransmit d ctx).dev.sendCalls =
      d.sendCalls ++ [(ctx.sTransmitFrame.mPsdu, ctx.sTransmitFrame.mLength)] := by
  simp [otPlatRadioTransmit, h1, h2, set_channel, set_power]

/-- C10 witness: evaluated on an idle device whose driver reports failing
result codes for `set` and `send`; Transmit still returns Success. -/
theorem transmit_always_reports_success_witness :
    is_rx { mkDev NetoptState.IDLE with setResult := -1, sendResult := -121 } = false ∧
    is_tx { mkDev NetoptState.IDLE with setResult := -1, sendResult := -121 } = false ∧
    (otPlatRadioTransmit { mkDev NetoptState.IDLE with setResult := -1, sendResult := -121 } ctx0).ret =
      ThreadError.kThreadError_None := by
  have h1 : is_rx { mkDev NetoptState.IDLE with setResult := -1, sendResult := -121 } = false := by decide
  have h2 : is_tx { mkDev NetoptState.IDLE with setResult := -1, sendResult := -121 } = false := by decide
  exact ⟨h1, h2,
    (transmit_always_reports_success
      { mkDev NetoptState.IDLE with setResult := -1, sendResult := -121 } ctx0 h1 h2).1⟩

/-- C4 counterexample: with the driver in IDLE (the active Receive-listen
state, not Disabled), Enable returns success but changes the device state
to SLEEP — it is not a no-op, contrary to the claim. -/
theorem enable_not_idempotent_on_idle :
    (mkDev NetoptState.IDLE).state ≠ NetoptState.OFF ∧
    (otPlatRadioEnable (mkDev NetoptState.IDLE)).1 = ThreadError.kThreadError_None ∧
    (otPlatRadioEnable (mkDev NetoptState.IDLE)).2.state ≠ (mkDev NetoptState.IDLE).state := by
  refine ⟨by decide, rfl, by decide⟩

/-- C4 amended: Enable always returns success; it is a no-op exactly when
the device is busy (mid-Tx or mid-Rx); in every other state — including
states other than Disabled, such as Receive-idle — it sets the device
state to SLEEP (so it is a no-op on the state only when the state is
already SLEEP). -/
theorem enable_spec (d : Netdev) :
    (otPlatRadioEnable d).1 = ThreadError.kThreadError_None ∧
    (is_busy d = true → (otPlatRadioEnable d).2 = d) ∧
    (is_busy d = false → (otPlatRadioEnable d).2 = set_state d NetoptState.SLEEP) := by
  unfold otPlatRadioEnable
  by_cases h : is_busy d = true <;> simp [h]

/-- C4 amended witness: evaluated on a busy (mid-Tx) device and on a
sleeping device. -/
theorem enable_spec_witness :
    is_busy (mkDev NetoptState.TX) = true ∧
    (otPlatRadioEnable (mkDev NetoptState.TX)).2 = mkDev NetoptState.TX := by
  have h : is_busy (mkDev NetoptState.TX) = true := by decide
  exact ⟨h, (enable_spec (mkDev NetoptState.TX)).2.1 h⟩

/-- C5: when the device is not busy, the Sleep command returns success and
the device ends in the OFF (Disabled) driver state, having transitioned
through SLEEP into the combined disable; when busy, it returns Busy and
leaves the device unchanged. -/
theorem sleep_disables_radio (d : Netdev) :
    (is_busy d = false →
      (otPlatRadioSleep d).1 = ThreadError.kThreadError_None ∧
      (otPlatRadioSleep d).2 = set_state d NetoptState.OFF ∧
      (otPlatRadioSleep d).2.state = NetoptState.OFF) ∧
    (is_busy d = true →
      (otPlatRadioSleep d).1 = ThreadError.kThreadError_Busy ∧
      (otPlatRadioSleep d).2 = d) := by
  constructor
  · intro h
    simp only [is_busy, get_state, decide_eq_false_iff_not, not_or] at h
    simp [otPlatRadioSleep, otPlatRadioDisable, is_busy, get_state, set_state, h.1, h.2]
  · intro h
    simp [otPlatRadioSleep, h]

/-- C5 witness: evaluated on a sleeping (not busy) device and a mid-Rx
(busy) device. -/
theorem sleep_disables_radio_witness :
    is_busy (mkDev NetoptState.SLEEP) = false ∧
    (otPlatRadioSleep (mkDev NetoptState.SLEEP)).1 = ThreadError.kThreadError_None ∧
    (otPlatRadioSleep (mkDev NetoptState.SLEEP)).2.state = NetoptState.OFF ∧
    is_busy (mkDev NetoptState.RX) = true ∧
    (otPlatRadioSleep (mkDev NetoptState.RX)).1 = ThreadError.kThreadError_Busy := by
  have h1 : is_busy (mkDev NetoptState.SLEEP) = false := by decide
  have h2 : is_busy (mkDev NetoptState.RX) = true := by decide
  have t1 := (sleep_disables_radio (mkDev NetoptState.SLEEP)).1 h1
  have t2 := (sleep_disables_radio (mkDev NetoptState.RX)).2 h2
  exact ⟨h1, t1.1, t1.2.2, h2, t2.1⟩

/-- C6: evaluation at the failing input.  With the current time at
2000000 µs, `start_at(reference_time := 1000, delay := 5)` arms the timer
for 2005000 µs — the same deadline as with reference_time 42424, and not
the claimed absolute time reference_time + delay = 1005 ms = 1005000 µs:
the scheduled deadline is current-time-relative and ignores the
reference-time argument, contradicting the function's own documentation
("set the alarm to fire at aDt milliseconds after aT0").  The zero-delay
half of the claim does hold: the notification is enqueued synchronously and
the timer facility is not used. -/
theorem start_at_ignores_reference_time :
    (otPlatAlarmMilliStartAt 2000000 1000 5 alarm0).timer = some 2005000 ∧
    (otPlatAlarmMilliStartAt 2000000 42424 5 alarm0).timer = some 2005000 ∧
    (2005000 : Nat) ≠ (1000 + 5) * US_PER_MS ∧
    (otPlatAlarmMilliStartAt 2000000 1000 0 alarm0).timer = none ∧
    (otPlatAlarmMilliStartAt 2000000 1000 0 alarm0).queue = [MsgType.otEvent] := by
  refine ⟨rfl, rfl, by decide, rfl, rfl⟩

/-- C7 counterexample: a zero-delay `start_at` issued while a delivery is
still pending in the timer facility (deadline 7777) enqueues the new
notification but leaves the pending timer armed — the previously scheduled
delivery is not cancelled, contrary to the claim that every `start_at`,
including one with delay zero, cancels it. -/
theorem start_at_zero_delay_does_not_cancel :
    (otPlatAlarmMilliStartAt 5 6 0 alarmPending).timer = some 7777 ∧
    (otPlatAlarmMilliStartAt 5 6 0 alarmPending).timer ≠ none ∧
    (otPlatAlarmMilliStartAt 5 6 0 alarmPending).queue = [MsgType.otEvent] := by
  refine ⟨rfl, by decide, rfl⟩

/-- C7 amended: a `start_at` with nonzero delay re-arms the single timer
object, overwriting (hence cancelling) any previously pending scheduled
delivery; a `start_at` with delay zero enqueues the notification
synchronously and leaves a pending scheduled delivery untouched; and
`stop` with no active alarm is a no-op (its C type is `void`, so it
reports no error). -/
theorem alarm_single_timer_spec (nowUs aT0 aDt : Nat) (s : AlarmState) :
    (aDt ≠ 0 → (otPlatAlarmMilliStartAt nowUs aT0 aDt s).timer =
      some (nowUs + (aDt * US_PER_MS) % 2 ^ 32)) ∧
    (aDt = 0 → (otPlatAlarmMilliStartAt nowUs aT0 aDt s).timer = s.timer ∧
      (otPlatAlarmMilliStartAt nowUs aT0 aDt s).queue = s.queue ++ [MsgType.otEvent]) ∧
    (s.timer = none → otPlatAlarmMilliStop s = s) := by
  refine ⟨fun h => ?_, fun h => ?_, fun h => ?_⟩
  · simp [otPlatAlarmMilliStartAt, xtimer_set_msg, h]
  · simp [otPlatAlarmMilliStartAt, msg_send, h]
  · cases s with
    | mk timer queue =>
        simp only at h
        simp [otPlatAlarmMilliStop, xtimer_remove, h]

/-- C7 amended witness: evaluated on a pending-alarm state with nonzero and
zero delays, and `stop` on an idle state. -/
theorem alarm_single_timer_spec_witness :
    (otPlatAlarmMilliStartAt 100 0 2 alarmPending).timer = some (100 + 2000) ∧
    (otPlatAlarmMilliStartAt 100 0 0 alarmPending).timer = alarmPending.timer ∧
    otPlatAlarmMilliStop alarm0 = alarm0 := by
  have t := alarm_single_timer_spec 100 0 2 alarmPending
  have t0 := alarm_single_timer_spec 100 0 0 alarmPending
  have ts := alarm_single_timer_spec 100 0 0 alarm0
  refine ⟨?_, (t0.2.1 rfl).1, ts.2.2 rfl⟩
  have h2 := t.1 (by decide)
  simpa using h2

/-- C8 counterexample: setting the sample extended address
00-01-02-03-04-05-06-07 and reading it back through the matching get
accessor (over a device echoing the raw stored bytes) does not return the
original address — the get accessor performs no reversal, so the
round-trip yields the byte-reversed address. -/
theorem extended_address_roundtrip_reversed :
    otPlatRadioGetIeeeEui64
      (otPlatRadioSetExtendedAddress (mkDev NetoptState.SLEEP) sampleAddr) ≠ sampleAddr := by
  intro h
  have h0 := congrFun h 0
  simp [otPlatRadioGetIeeeEui64, otPlatRadioSetExtendedAddress, get_long_addr,
        set_long_addr, reverseAddr, sampleAddr, mkDev] at h0

/-- C8 amended: the set accessor hands the device the extended address
byte-reversed relative to the input order (byte i of the captured value is
byte 7 - i of the input), and the round-trip of set followed by get through
a device that echoes the raw stored bytes returns that byte-reversed
address, not the original: the matching get accessor applies no reversal. -/
theorem extended_address_set_reverses (d : Netdev) (a : Fin 8 → Nat) :
    (∃ cap, (otPlatRadioSetExtendedAddress d a).longAddrRaw = some cap ∧
      ∀ i : Fin 8, cap i = a ⟨7 - i.val, Nat.lt_succ_of_le (Nat.sub_le 7 i.val)⟩) ∧
    (∀ i : Fin 8, otPlatRadioGetIeeeEui64 (otPlatRadioSetExtendedAddress d a) i =
      a ⟨7 - i.val, Nat.lt_succ_of_le (Nat.sub_le 7 i.val)⟩) := by
  refine ⟨⟨reverseAddr a, rfl, fun i => rfl⟩, fun i => ?_⟩
  simp [otPlatRadioGetIeeeEui64, otPlatRadioSetExtendedAddress, get_long_addr,
        set_long_addr, reverseAddr]

/-- C3: a receive completion whose reported length exceeds the maximum
representable frame size (`UINT16_MAX`, within the `int` range) yields an
Abort upcall with no frame reference, leaves the inbound frame (length and
power included) unchanged, and performs no payload read into the receive
buffer; for every in-range length the handler fills the inbound frame's
length and power fields, reads the payload, and reports success exactly
when the payload read result is positive, Abort (with no frame reference)
otherwise. -/
theorem recv_pkt_spec (d : Netdev) (ctx : RadioCtx) :
    (65535 < d.recvLenRes → d.recvLenRes < 2 ^ 31 →
      recv_pkt d ctx =
        { upcallFrame := none, upcallError := ThreadError.kThreadError_Abort,
          ctx := ctx, bufferReadLen := none }) ∧
    (0 ≤ d.recvLenRes → d.recvLenRes ≤ 65535 →
      (recv_pkt d ctx).ctx.sReceiveFrame.mLength = d.recvLenRes.toNat ∧
      (recv_pkt d ctx).ctx.sReceiveFrame.mPower = d.power ∧
      (recv_pkt d ctx).bufferReadLen = some d.recvLenRes ∧
      ((recv_pkt d ctx).upcallError = ThreadError.kThreadError_None ↔ 0 < d.recvReadRes) ∧
      (0 < d.recvReadRes →
        (recv_pkt d ctx).upcallFrame = some (recv_pkt d ctx).ctx.sReceiveFrame) ∧
      (¬ 0 < d.recvReadRes →
        (recv_pkt d ctx).upcallFrame = none ∧
        (recv_pkt d ctx).upcallError = ThreadError.kThreadError_Abort)) := by
  have hpow : (2 ^ 32 : Int) = 4294967296 := by norm_num
  constructor
  · intro h1 h2
    have hmod : d.recvLenRes % (2 ^ 32 : Int) = d.recvLenRes := by
      rw [hpow]
      exact Int.emod_eq_of_lt (by omega) (by omega)
    simp only [recv_pkt, uint32_of_int, hmod]
    rw [if_pos (by omega)]
  · intro h1 h2
    have hmod : d.recvLenRes % (2 ^ 32 : Int) = d.recvLenRes := by
      rw [hpow]
      exact Int.emod_eq_of_lt (by omega) (by omega)
    have hlen : uint16_of d.recvLenRes.toNat = d.recvLenRes.toNat := by
      unfold uint16_of
      omega
    simp only [recv_pkt, uint32_of_int, hmod]
    rw [if_neg (by omega)]
    refine ⟨hlen, rfl, rfl, ?_, ?_, ?_⟩
    · by_cases hres : 0 < d.recvReadRes <;> simp [hres]
    · intro hres
      simp [hres]
    · intro hres
      simp [hres]

/-- C3 witness: evaluated on a driver reporting length 70000 (over-max,
abort without touching anything) and on a driver reporting length 100 with
a successful read of 100 bytes. -/
theorem recv_pkt_spec_witness :
    (65535 : Int) < devRecvBig.recvLenRes ∧ devRecvBig.recvLenRes < 2 ^ 31 ∧
    recv_pkt devRecvBig ctx0 =
      { upcallFrame := none, upcallError := ThreadError.kThreadError_Abort,
        ctx := ctx0, bufferReadLen := none } ∧
    (0 : Int) ≤ devRecvOk.recvLenRes ∧ devRecvOk.recvLenRes ≤ 65535 ∧
    (recv_pkt devRecvOk ctx0).ctx.sReceiveFrame.mLength = 100 ∧
    (recv_pkt devRecvOk ctx0).ctx.sReceiveFrame.mPower = -7 ∧
    (recv_pkt devRecvOk ctx0).upcallError = ThreadError.kThreadError_None := by
  have t1 := (recv_pkt_spec devRecvBig ctx0).1 (by decide) (by decide)
  have t2 := (recv_pkt_spec devRecvOk ctx0).2 (by decide) (by decide)
  refine ⟨by decide, by decide, t1, by decide, by decide, ?_, ?_, ?_⟩
  · simpa using t2.1
  · simpa using t2.2.1
  · exact t2.2.2.2.1.mpr (by decide)

/-- C9: for every 16-bit PAN id and short address, the set operations hand
the device exactly the byte-swapped 16-bit value: the raw captured value is
(low byte of input) * 256 + (high byte of input). -/
theorem panid_short_addr_byteswap (d : Netdev) (p a : Nat)
    (hp : p < 65536) (ha : a < 65536) :
    (otPlatRadioSetPanId d p).panidRaw = some ((p % 256) * 256 + p / 256) ∧
    (otPlatRadioSetShortAddress d a).shortAddrRaw = some ((a % 256) * 256 + a / 256) := by
  constructor
  · simp only [otPlatRadioSetPanId, set_panid]
    rw [set_swapped_raw p hp]
  · simp only [otPlatRadioSetShortAddress, set_addr]
    rw [set_swapped_raw a ha]

/-- C9 witness: PAN id and short address 0x1234 are captured by the device
as 0x3412. -/
theorem panid_short_addr_byteswap_witness :
    (4660 : Nat) < 65536 ∧
    (otPlatRadioSetPanId (mkDev NetoptState.SLEEP) 4660).panidRaw = some 13330 ∧
    (otPlatRadioSetShortAddress (mkDev NetoptState.SLEEP) 4660).shortAddrRaw = some 13330 := by
  have t := panid_short_addr_byteswap (mkDev NetoptState.SLEEP) 4660 4660
    (by decide) (by decide)
  refine ⟨by decide, ?_, ?_⟩
  · simpa using t.1
  · simpa using t.2

end RiotOT
